import Mathlib

/-!
Verification of the session-based media-processing pipeline of `api_server.py`
(person-detection upload/process/download API).

Shallow embedding conventions:
* Filenames stored on disk are modelled as lists of Unicode code points
  (`FileName := List Nat`); Python string comparison (used by `sorted`) is
  lexicographic on code points, which is the `List Nat` lexicographic order.
  All frames of one session live in one directory, so comparing full paths
  with a common directory prefix is the same as comparing the file names.
* The global `sessions` dict, the per-session upload directories, and the set
  of scheduled background tasks are modelled as association lists inside
  `ServerState`.  `BackgroundTasks.add_task(process_images, sid, fps)` is
  modelled by appending `sid` to the `tasks` list.
* Uploaded file contents are an abstract type `γ`; image decoding
  (`cv2.imread`, which returns `None` on failure) is an abstract
  `γ → Option Img`; the detector (`model.track`) is an abstract
  `Img → Except String (List (List Int))` returning one box-class list per
  result object, where `.error` models a raised exception (caught by the
  `except` block of `process_images`).
* The uuid-generation branch for an absent `session_id` is outside the model:
  the `sid` argument below is the (possibly generated) session id.
-/

/-- Stored file names, as lists of Unicode code points. -/
abbrev FileName : Type := List Nat

/-- Code points of a Lean string literal (used to embed Python string literals). -/
def strCP (s : String) : List Nat := s.data.map Char.toNat

deriving instance DecidableEq for Except

/-- Session status strings used by `api_server.py`:
`'uploaded'`, `'processing'`, `'completed'`, `'error'`. -/
inductive Status where
  | uploaded
  | processing
  | completed
  | error
deriving DecidableEq, Repr

/-- The per-session dict stored in the global `sessions` map.  Timestamps
(`created_at`, `last_upload`) are irrelevant to every claim and omitted. -/
structure SessionRec where
  status : Status
  fileCount : Nat
  processedCount : Option Nat := none
  maxPeople : Option Nat := none
  totalPeople : Option Nat := none
  outputPath : Option String := none
  errorMsg : Option String := none
deriving DecidableEq, Repr

/-- Association-list lookup (embeds Python dict access / `in` tests). -/
def alookup {α β : Type} [DecidableEq α] : List (α × β) → α → Option β
  | [], _ => none
  | (a, b) :: r, k => if a = k then some b else alookup r k

/-- Association-list write (embeds Python dict item assignment; also used for
writing a file into a directory, where an existing name is overwritten). -/
def aset {α β : Type} [DecidableEq α] : List (α × β) → α → β → List (α × β)
  | [], k, v => [(k, v)]
  | (a, b) :: r, k, v => if a = k then (k, v) :: r else (a, b) :: aset r k v

/-- Association-list removal (embeds Python dict `pop` / directory removal). -/
def aremove {α β : Type} [DecidableEq α] : List (α × β) → α → List (α × β)
  | [], _ => []
  | (a, b) :: r, k => if a = k then aremove r k else (a, b) :: aremove r k

/-- One session's upload directory: stored file name to raw content. -/
abbrev Dir (γ : Type) : Type := List (FileName × γ)

/-- The server's mutable state: the global `sessions` dict, the `uploads/`
directory tree, and the queue of scheduled `process_images` background tasks
(one entry per `add_task` call, recorded by session id). -/
structure ServerState (γ : Type) where
  sessions : List (String × SessionRec)
  dirs : List (String × Dir γ)
  tasks : List String
deriving DecidableEq

/-- Python `str.lower` on one code point (ASCII case folding, which is all the
extension check needs). -/
def lowerCP (c : Nat) : Nat := if 65 ≤ c ∧ c ≤ 90 then c + 32 else c

/-- Embeds `file.filename.lower().endswith(('.jpg', '.jpeg', '.png'))`. -/
def isImageExt (s : String) : Bool :=
  let l := (strCP s).map lowerCP
  (strCP ".jpg").isSuffixOf l || (strCP ".jpeg").isSuffixOf l ||
    (strCP ".png").isSuffixOf l

/-- Big-endian decimal digits of `n` as code points, prepended to `acc`
(embeds Python `str(n)` for a nonnegative int).  The first argument is
recursion fuel: `n + 1` is always enough, since the value shrinks by a factor
of ten per step. -/
def decDigitsCore : Nat → Nat → List Nat → List Nat
  | 0, _, acc => acc
  | fuel + 1, n, acc =>
    if n < 10 then (48 + n) :: acc
    else decDigitsCore fuel (n / 10) ((48 + n % 10) :: acc)

/-- Python `str(n)` as code points. -/
def decRepr (n : Nat) : List Nat := decDigitsCore (n + 1) n []

/-- Proof-layer restatement of the decimal digits of `n` (big-endian code
points), used to reason about `decRepr`. -/
def digitsBE (n : Nat) : List Nat :=
  if n < 10 then [48 + n] else digitsBE (n / 10) ++ [48 + n % 10]
termination_by n
decreasing_by exact Nat.div_lt_self (by omega) (by omega)

/-- Python `f"{n:05d}"`: the decimal digits, left-padded with `'0'` (code
point 48) to at least five characters. -/
def pad5 (n : Nat) : List Nat :=
  List.replicate (5 - (decRepr n).length) 48 ++ decRepr n

/-- The stored frame name `f"{file_count:05d}.jpg"` of `upload_images`. -/
def frameName (i : Nat) : FileName := pad5 i ++ strCP ".jpg"

/-- One item of the `files` form field: a client-side file name and content. -/
structure UpFile (γ : Type) where
  filename : String
  content : γ
deriving DecidableEq

/-- The save loop of `upload_images` (lines 198–207): starting from
`file_count = 0`, each item with an accepted extension is written to
`session_dir / f"{file_count:05d}.jpg"` (overwriting any file of that name)
and `file_count` is incremented; other items are skipped silently. -/
def saveFiles {γ : Type} (d : Dir γ) (count : Nat) : List (UpFile γ) → Dir γ × Nat
  | [] => (d, count)
  | f :: fs =>
    if isImageExt f.filename then
      saveFiles (aset d (frameName count) f.content) (count + 1) fs
    else
      saveFiles d count fs

/-- Response body of the upload endpoint: the session id, the uploaded-file
count reported in the message, and the `status` field of the JSON response. -/
structure UploadResp where
  sessionId : String
  accepted : Nat
  statusStr : String
deriving DecidableEq, Repr

/-- `POST /api/upload/` (`upload_images`, lines 173–236): create the session
directory if absent, save the accepted files numbered from 0, create or
update the session record, and schedule a background `process_images` task
when `process_now` is set and at least one file was saved. -/
def upload_images {γ : Type} [DecidableEq γ] (st : ServerState γ) (sid : String)
    (files : List (UpFile γ)) (process_now : Bool) : ServerState γ × UploadResp :=
  let dirs1 := match alookup st.dirs sid with
    | some _ => st.dirs
    | none => aset st.dirs sid []
  let d0 := (alookup dirs1 sid).getD []
  let saved := saveFiles d0 0 files
  let dirs2 := aset dirs1 sid saved.1
  let batch := saved.2
  let sessions' := match alookup st.sessions sid with
    | none => aset st.sessions sid { status := .uploaded, fileCount := batch }
    | some r => aset st.sessions sid
        { r with status := .uploaded, fileCount := r.fileCount + batch }
  if process_now ∧ 0 < batch then
    (⟨sessions', dirs2, st.tasks ++ [sid]⟩,
      ⟨sid, batch, "processing"⟩)
  else
    (⟨sessions', dirs2, st.tasks⟩, ⟨sid, batch, "uploaded"⟩)

/-- Error responses raised via `HTTPException`: 404 (`NotFound` in the spec's
taxonomy) and 400 (`InvalidState`). -/
inductive ApiErr where
  | notFound (detail : String)
  | badRequest (detail : String)
deriving DecidableEq, Repr

/-- Response body of the process-trigger endpoint. -/
structure ProcResp where
  sessionId : String
  statusStr : String
deriving DecidableEq, Repr

/-- `POST /api/process/{session_id}` (`process_session`, lines 239–268):
404 when the session id is unknown or its upload directory does not exist;
otherwise set the status to `processing` and schedule a background
`process_images` task.  There is no check of the current status and no check
that the directory holds any frame. -/
def process_session {γ : Type} (st : ServerState γ) (sid : String) :
    Except ApiErr (ServerState γ × ProcResp) :=
  match alookup st.sessions sid with
  | none => .error (.notFound ("Session " ++ sid ++ " not found"))
  | some r =>
    match alookup st.dirs sid with
    | none => .error (.notFound ("No images found for session " ++ sid))
    | some _ =>
      .ok (⟨aset st.sessions sid { r with status := .processing },
            st.dirs, st.tasks ++ [sid]⟩,
           ⟨sid, "processing"⟩)

/-- `GET /api/status/{session_id}` (`check_status`, lines 271–281): 404 when
unknown, otherwise the full session record. -/
def check_status (sessions : List (String × SessionRec)) (sid : String) :
    Except ApiErr SessionRec :=
  match alookup sessions sid with
  | none => .error (.notFound ("Session " ++ sid ++ " not found"))
  | some r => .ok r

/-- The `*.jpg` glob pattern: the name ends in `".jpg"`. -/
def matchesJpg (n : FileName) : Bool := (strCP ".jpg").isSuffixOf n

/-- Line 69 of `process_images`:
`image_paths = sorted(list(image_dir.glob("*.jpg")))`.
The directory association list supplies the (untrusted) enumeration order of
the storage; `sorted` orders the names lexicographically on code points. -/
def globSortJpg {γ : Type} (d : Dir γ) : List FileName :=
  List.insertionSort (· ≤ ·) ((d.map Prod.fst).filter matchesJpg)

/-- `cv2.imread(path)`: look the name up in the directory and decode; either a
missing file or undecodable content yields `none`. -/
def readImage {γ Img : Type} (d : Dir γ) (decode : γ → Option Img)
    (n : FileName) : Option Img :=
  (alookup d n).bind decode

/-- One frame written to the output video by `process_images`:
the detector-annotated image (`result.plot()`, modelled as the source image
together with the box classes drawn on it) plus the two `cv2.putText`
overlays, which are present only when the frame had at least one box
(lines 116–143): the per-frame person count and the source file name. -/
structure OutFrame (Img : Type) where
  srcName : FileName
  img : Img
  boxes : List Int
  overlay : Option (Nat × FileName)
deriving DecidableEq

/-- Accumulators of the frame loop of `process_images` (lines 94–148):
frames written so far, `total_people`, `max_people_in_frame`,
`processed_count`. -/
structure LoopAcc (Img : Type) where
  outs : List (OutFrame Img)
  total : Nat
  maxP : Nat
  processed : Nat
deriving DecidableEq

/-- `people_count = sum(1 for cls in detected_classes if int(cls) == 0)`. -/
def countPersons (boxes : List Int) : Nat := boxes.countP (· == 0)

/-- The frame loop of `process_images` (lines 99–148).  Per stored name, in
order: read the image (`cv2.imread`); on failure log and skip.  Run the
detector (`model.track`); a raised exception (`.error`) aborts the loop and
propagates to the `except` handler.  If the result list is empty nothing
happens for this frame; otherwise the first result is plotted, and when its
box list is nonempty the person count is accumulated into `total_people` and
`max_people_in_frame` and the two text overlays are drawn; the (annotated)
frame is then written and `processed_count` incremented. -/
def runLoop {γ Img : Type} (d : Dir γ) (decode : γ → Option Img)
    (detect : Img → Except String (List (List Int))) :
    List FileName → LoopAcc Img → Except String (LoopAcc Img)
  | [], acc => .ok acc
  | n :: rest, acc =>
    match readImage d decode n with
    | none => runLoop d decode detect rest acc
    | some img =>
      match detect img with
      | .error e => .error e
      | .ok results =>
        match results with
        | [] => runLoop d decode detect rest acc
        | r :: _ =>
          if r = [] then
            runLoop d decode detect rest
              { acc with
                outs := acc.outs ++ [⟨n, img, r, none⟩],
                processed := acc.processed + 1 }
          else
            runLoop d decode detect rest
              { outs := acc.outs ++ [⟨n, img, r, some (countPersons r, n)⟩],
                total := acc.total + countPersons r,
                maxP := max acc.maxP (countPersons r),
                processed := acc.processed + 1 }

/-- `str(RESULTS_DIR / f"{session_id}_processed.mp4")`. -/
def outName (sid : String) : String := "results/" ++ sid ++ "_processed.mp4"

/-- Lines 150–170 of `process_images`: after the loop, release the writer and
update the session record to `completed` with the accumulated counters and
the output path.  The dict access `sessions[session_id]` raises `KeyError`
when the session was deleted meanwhile; the surrounding `except` block
catches it, finds the session absent, and leaves everything unchanged,
returning `None`.  A loop exception with the session still present sets
`status='error'` and `error=str(e)`. -/
def pipelineFinalize {Img : Type} (sessions : List (String × SessionRec))
    (sid : String) (res : Except String (LoopAcc Img)) :
    Option String × List (String × SessionRec) :=
  match res with
  | .ok acc =>
    match alookup sessions sid with
    | some r =>
      (some (outName sid),
       aset sessions sid
         { r with
           status := .completed,
           processedCount := some acc.processed,
           maxPeople := some acc.maxP,
           totalPeople := some acc.total,
           outputPath := some (outName sid) })
    | none => (none, sessions)
  | .error e =>
    match alookup sessions sid with
    | some r => (none, aset sessions sid { r with status := .error, errorMsg := some e })
    | none => (none, sessions)

/-- `process_images(session_id, fps)` (lines 55–170), run to completion
against a fixed snapshot of the `sessions` map and the session's directory.
Returns the value returned by the Python function (the output path or
`None`) together with the updated `sessions` map.  Early `return None`
branches: unknown session (line 61), no `*.jpg` files (line 70), first image
unreadable (line 81).  Note that the early returns do NOT touch the session
record. -/
def process_images {γ Img : Type} (sid : String)
    (sessions : List (String × SessionRec)) (d : Dir γ)
    (decode : γ → Option Img)
    (detect : Img → Except String (List (List Int))) :
    Option String × List (String × SessionRec) :=
  match alookup sessions sid with
  | none => (none, sessions)
  | some _ =>
    match globSortJpg d with
    | [] => (none, sessions)
    | n0 :: rest =>
      match readImage d decode n0 with
      | none => (none, sessions)
      | some _ =>
        pipelineFinalize sessions sid
          (runLoop d decode detect (n0 :: rest) ⟨[], 0, 0, 0⟩)

/-- Response of the download endpoint: the served file and its content type. -/
structure DlResp where
  path : String
  filename : String
  mediaType : String
deriving DecidableEq, Repr

/-- `GET /api/download/{session_id}` (`download_video`, lines 284–302):
404 when the session is unknown; 400 when its status is not `completed`;
404 when the recorded output file is absent on disk; otherwise a
`FileResponse` with media type `video/mp4`.  `fileExists` is the state of
the results directory (`os.path.exists`). -/
def download_video (sessions : List (String × SessionRec))
    (fileExists : String → Bool) (sid : String) : Except ApiErr DlResp :=
  match alookup sessions sid with
  | none => .error (.notFound ("Session " ++ sid ++ " not found"))
  | some r =>
    if r.status ≠ Status.completed then
      .error (.badRequest ("Processing for session " ++ sid ++ " is not complete"))
    else
      match r.outputPath with
      | none => .error (.notFound ("Output video for session " ++ sid ++ " not found"))
      | some p =>
        if fileExists p then
          .ok ⟨p, "processed_" ++ sid ++ ".mp4", "video/mp4"⟩
        else
          .error (.notFound ("Output video for session " ++ sid ++ " not found"))

/-- `clean_session` (lines 45–53): pop the session record and remove the
session's upload directory.  Scheduled as a background task by
`delete_session`. -/
def clean_session {γ : Type} (sessions : List (String × SessionRec))
    (dirs : List (String × Dir γ)) (sid : String) :
    List (String × SessionRec) × List (String × Dir γ) :=
  (aremove sessions sid, aremove dirs sid)

/-- `DELETE /api/session/{session_id}` (`delete_session`, lines 305–324):
404 when unknown; otherwise schedule `clean_session` as a background task and
delete the output file at once.  Returns the state with the clean-up still
pending (`cleanPending` records the scheduled task). -/
structure DeleteOutcome (γ : Type) where
  sessions : List (String × SessionRec)
  dirs : List (String × Dir γ)
  cleanPending : Bool
  removedFile : Option String
deriving DecidableEq

def delete_session {γ : Type} (sessions : List (String × SessionRec))
    (dirs : List (String × Dir γ)) (fileExists : String → Bool) (sid : String) :
    Except ApiErr (DeleteOutcome γ) :=
  match alookup sessions sid with
  | none => .error (.notFound ("Session " ++ sid ++ " not found"))
  | some r =>
    .ok ⟨sessions, dirs, true,
         match r.outputPath with
         | some p => if fileExists p then some p else none
         | none => none⟩

/-- The per-frame outcome of the loop body of `process_images`, for runs in
which no exception is raised: `none` when the frame is skipped (unreadable
image, or an empty detector result list), otherwise the written output frame,
whose text overlay is present exactly when the first result has at least one
box. -/
def frameOut {γ Img : Type} (d : Dir γ) (decode : γ → Option Img)
    (detect : Img → Except String (List (List Int))) (n : FileName) :
    Option (OutFrame Img) :=
  match readImage d decode n with
  | none => none
  | some img =>
    match detect img with
    | .error _ => none
    | .ok [] => none
    | .ok (r :: _) =>
      some ⟨n, img, r, if r = [] then none else some (countPersons r, n)⟩

/-- The five code points of `f"{n:05d}"` for `n < 100000`, written
arithmetically. -/
def digits5 (n : Nat) : List Nat :=
  [48 + n / 10000, 48 + n / 1000 % 10, 48 + n / 100 % 10, 48 + n / 10 % 10,
    48 + n % 10]

/-- C7 as stated by the specification: for every session whose stored frames
are exactly the ones uploaded with sequence indices `0..N-1`, and every order
in which the storage enumerates them, the pipeline reads them back in
ascending index order. -/
def c7ReadOrderClaim : Prop :=
  ∀ (N : Nat) (d : Dir Unit),
    List.Perm (d.map Prod.fst) ((List.range N).map frameName) →
    globSortJpg d = (List.range N).map frameName

/-! ### Helper lemmas about the association-list operations -/

theorem alookup_aset_self {α β : Type} [DecidableEq α] (l : List (α × β))
    (k : α) (v : β) : alookup (aset l k v) k = some v := by
  induction l with
  | nil => simp [aset, alookup]
  | cons p r ih =>
    by_cases h : p.1 = k
    · simp [aset, h, alookup]
    · simp [aset, h, alookup, ih]

theorem alookup_aremove_self {α β : Type} [DecidableEq α] (l : List (α × β))
    (k : α) : alookup (aremove l k) k = none := by
  induction l with
  | nil => simp [aremove, alookup]
  | cons p r ih =>
    by_cases h : p.1 = k
    · simp [aremove, h, ih]
    · simp [aremove, h, alookup, ih]

theorem saveFiles_of_none_accepted {γ : Type} (files : List (UpFile γ))
    (d : Dir γ) (c : Nat)
    (h : files.countP (fun f => isImageExt f.filename) = 0) :
    saveFiles d c files = (d, c) := by
  induction files generalizing d c with
  | nil => rfl
  | cons f fs ih =>
    rw [List.countP_cons] at h
    by_cases hf : isImageExt f.filename
    · simp [hf] at h
    · rw [saveFiles, if_neg hf]
      exact ih d c (by omega)

/-! ### C1 -/

/-- C1: the code contradicts the claim.  With a session already in
`Processing` (and one pipeline task already scheduled for it), a second
process request is not rejected and is not a no-op: `process_session`
succeeds and schedules a second `process_images` task for the same session,
so two pipeline executions run for one session. -/
theorem c1_second_process_request_schedules_second_run :
    process_session (γ := Nat)
      ⟨[("s", { status := .processing, fileCount := 1 })],
       [("s", [(frameName 0, 7)])], ["s"]⟩ "s" =
    .ok (⟨[("s", { status := .processing, fileCount := 1 })],
          [("s", [(frameName 0, 7)])], ["s", "s"]⟩,
         ⟨"s", "processing"⟩) := by
  decide

/-! ### C2 -/

/-- C2: the code contradicts the claim.  Uploading one image (content `7`) to
a fresh session and then a second image (content `8`) in a second batch does
not continue numbering from `fileCount`: both batches start at index 0, so the
second batch overwrites frame `00000.jpg` — after both uploads the directory
holds a single frame whose content is `8`, while `fileCount` reports 2. -/
theorem c2_second_batch_restarts_at_zero_and_overwrites :
    (let st1 := (upload_images (γ := Nat) ⟨[], [], []⟩ "s"
        [⟨"a.jpg", 7⟩] false).1
     let st2 := (upload_images st1 "s" [⟨"b.jpg", 8⟩] false).1
     alookup st2.dirs "s" = some [(frameName 0, 8)] ∧
     alookup st2.sessions "s" =
       some { status := .uploaded, fileCount := 2 }) := by
  decide

/-! ### C3 -/

/-- C3: counterexample.  Uploading a single non-image file to a fresh session
creates the session record and an empty upload directory (`mkdir` runs before
the extension check).  A subsequent process request on this zero-frame
session is NOT rejected with an invalid-state error: it succeeds, sets the
status to `processing`, and schedules a background pipeline run; the run then
exits early, leaving the status at `processing` forever. -/
theorem c3_zero_frame_trigger_is_accepted :
    (let st0 := (upload_images (γ := Nat) ⟨[], [], []⟩ "s"
        [⟨"notes.txt", 7⟩] true).1
     alookup st0.sessions "s" = some { status := .uploaded, fileCount := 0 } ∧
     alookup st0.dirs "s" = some [] ∧
     process_session st0 "s" =
       .ok (⟨[("s", { status := .processing, fileCount := 0 })], [("s", [])],
             ["s"]⟩,
            ⟨"s", "processing"⟩) ∧
     process_images "s" [("s", { status := .processing, fileCount := 0 })]
        ([] : Dir Nat) (fun c => some c) (fun _ => .ok [[0]]) =
       (none, [("s", { status := .processing, fileCount := 0 })])) := by
  decide

/-- C3 amended: a process request for an unknown session, or for a session
whose upload directory does not exist, is rejected with `NotFound` (HTTP
404), not `InvalidState`; when the directory exists but holds zero frames the
request is accepted: the session moves to `Processing` and a background run
is scheduled, which then returns early, leaving the record unchanged (the
status stays `Processing` and no error is recorded). -/
theorem c3_amended_zero_frame_behaviour {γ Img : Type} (st : ServerState γ)
    (sid : String) (decode : γ → Option Img)
    (detect : Img → Except String (List (List Int))) :
    (alookup st.sessions sid = none →
      process_session st sid =
        .error (.notFound ("Session " ++ sid ++ " not found"))) ∧
    (∀ r, alookup st.sessions sid = some r → alookup st.dirs sid = none →
      process_session st sid =
        .error (.notFound ("No images found for session " ++ sid))) ∧
    (∀ r, alookup st.sessions sid = some r →
      alookup st.dirs sid = some ([] : Dir γ) →
      process_session st sid =
        .ok (⟨aset st.sessions sid { r with status := .processing }, st.dirs,
              st.tasks ++ [sid]⟩,
             ⟨sid, "processing"⟩) ∧
      process_images sid (aset st.sessions sid { r with status := .processing })
          ([] : Dir γ) decode detect =
        (none, aset st.sessions sid { r with status := .processing })) := by
  refine ⟨fun h => ?_, fun r hr hd => ?_, fun r hr hd => ⟨?_, ?_⟩⟩
  · simp [process_session, h]
  · simp [process_session, hr, hd]
  · simp [process_session, hr, hd]
  · simp [process_images, alookup_aset_self, globSortJpg]

/-- C3 amended, witnessed at the concrete state of the counterexample
scenario. -/
theorem c3_amended_zero_frame_behaviour_witness :
    process_session (γ := Nat)
      ⟨[("s", { status := .uploaded, fileCount := 0 })], [("s", [])], []⟩ "s" =
      .ok (⟨aset [("s", { status := .uploaded, fileCount := 0 })] "s"
              { status := .processing, fileCount := 0 }, [("s", [])], [] ++ ["s"]⟩,
           ⟨"s", "processing"⟩) ∧
    process_images "s"
        (aset [("s", { status := .uploaded, fileCount := 0 })] "s"
          { status := .processing, fileCount := 0 })
        ([] : Dir Nat) (fun c => some c) (fun _ => .ok [[0]]) =
      (none,
       aset [("s", { status := .uploaded, fileCount := 0 })] "s"
         { status := .processing, fileCount := 0 }) :=
  (c3_amended_zero_frame_behaviour
      ⟨[("s", { status := .uploaded, fileCount := 0 })], [("s", [])], []⟩ "s"
      (fun c => some c) (fun _ => .ok [[0]])).2.2
    { status := .uploaded, fileCount := 0 } (by decide) (by decide)

/-! ### C10 -/

/-- C10: when no uploaded item is accepted, `upload_images` still creates the
session record if absent (status `uploaded`, `fileCount` 0), or resets an
existing record's status to `uploaded` leaving its `fileCount` unchanged, and
never schedules a background processing task even when `process_now` is set;
the reported accepted count is 0 and the response status is `"uploaded"`. -/
theorem c10_empty_accepted_upload_never_schedules {γ : Type} [DecidableEq γ]
    (st : ServerState γ) (sid : String) (files : List (UpFile γ))
    (process_now : Bool)
    (h : files.countP (fun f => isImageExt f.filename) = 0) :
    (upload_images st sid files process_now).2.accepted = 0 ∧
    (upload_images st sid files process_now).2.statusStr = "uploaded" ∧
    (upload_images st sid files process_now).1.tasks = st.tasks ∧
    alookup (upload_images st sid files process_now).1.sessions sid =
      some (match alookup st.sessions sid with
            | none => { status := .uploaded, fileCount := 0 }
            | some r => { r with status := .uploaded }) := by
  have hs : ∀ (d : Dir γ) (c : Nat), saveFiles d c files = (d, c) :=
    fun d c => saveFiles_of_none_accepted files d c h
  unfold upload_images
  cases hdir : alookup st.dirs sid <;> cases hsess : alookup st.sessions sid <;>
    simp [hs, hdir, hsess, alookup_aset_self]

/-- C10, witnessed: uploading a single `.txt` file with `process_now=true` to
a fresh state. -/
theorem c10_empty_accepted_upload_never_schedules_witness :
    (upload_images (γ := Nat) ⟨[], [], []⟩ "s" [⟨"x.txt", 5⟩] true).2.accepted = 0 ∧
    (upload_images (γ := Nat) ⟨[], [], []⟩ "s" [⟨"x.txt", 5⟩] true).2.statusStr = "uploaded" ∧
    (upload_images (γ := Nat) ⟨[], [], []⟩ "s" [⟨"x.txt", 5⟩] true).1.tasks =
      (⟨[], [], []⟩ : ServerState Nat).tasks ∧
    alookup (upload_images (γ := Nat) ⟨[], [], []⟩ "s" [⟨"x.txt", 5⟩] true).1.sessions "s" =
      some (match alookup (⟨[], [], []⟩ : ServerState Nat).sessions "s" with
            | none => { status := .uploaded, fileCount := 0 }
            | some r => { r with status := .uploaded }) :=
  c10_empty_accepted_upload_never_schedules ⟨[], [], []⟩ "s" [⟨"x.txt", 5⟩] true
    (by decide)

/-! ### C4 -/

/-- C4: counterexample.  Ingestion does not inspect content at all — it
checks only the client file name's extension.  With content modelled as a
`Bool` recording whether the bytes are a supported raster image: an item
whose content IS a raster image but whose name is `photo.txt` is skipped
(accepted count 0, `fileCount` 0, though N = 1), while an item whose content
is NOT a raster image but is named `b.jpg` is accepted (accepted count 1,
though N = 0). -/
theorem c4_acceptance_ignores_content :
    (([⟨"photo.txt", true⟩] : List (UpFile Bool)).countP (fun f => f.content) = 1 ∧
     (upload_images (γ := Bool) ⟨[], [], []⟩ "s" [⟨"photo.txt", true⟩] false).2.accepted = 0 ∧
     alookup (upload_images (γ := Bool) ⟨[], [], []⟩ "s"
         [⟨"photo.txt", true⟩] false).1.sessions "s" =
       some { status := .uploaded, fileCount := 0 }) ∧
    (([⟨"b.jpg", false⟩] : List (UpFile Bool)).countP (fun f => f.content) = 0 ∧
     (upload_images (γ := Bool) ⟨[], [], []⟩ "s" [⟨"b.jpg", false⟩] false).2.accepted = 1 ∧
     alookup (upload_images (γ := Bool) ⟨[], [], []⟩ "s"
         [⟨"b.jpg", false⟩] false).1.sessions "s" =
       some { status := .uploaded, fileCount := 1 }) := by
  decide

theorem saveFiles_count {γ : Type} (files : List (UpFile γ)) (d : Dir γ)
    (c : Nat) :
    (saveFiles d c files).2 = c + files.countP (fun f => isImageExt f.filename) := by
  induction files generalizing d c with
  | nil => simp [saveFiles]
  | cons f fs ih =>
    by_cases hf : isImageExt f.filename
    · simp [saveFiles, hf, ih, List.countP_cons]
      omega
    · simp [saveFiles, hf, ih, List.countP_cons]

/-- C4 amended: for an upload of N items whose file NAME has a supported
image extension (`.jpg`/`.jpeg`/`.png`, case-insensitively) and M items
without, to a fresh session, ingestion silently skips the M others without
failing the batch, the response reports an accepted count of N, and the
session's `fileCount` equals N.  (Content is never examined.) -/
theorem c4_amended_extension_based_acceptance {γ : Type} [DecidableEq γ]
    (st : ServerState γ) (sid : String) (files : List (UpFile γ))
    (process_now : Bool) (hfresh : alookup st.sessions sid = none) :
    (upload_images st sid files process_now).2.accepted =
      files.countP (fun f => isImageExt f.filename) ∧
    ∃ r, alookup (upload_images st sid files process_now).1.sessions sid = some r ∧
      r.status = .uploaded ∧
      r.fileCount = files.countP (fun f => isImageExt f.filename) := by
  unfold upload_images
  cases hdir : alookup st.dirs sid <;>
    by_cases hnow : process_now = true <;>
      by_cases hpos : 0 < files.countP (fun f => isImageExt f.filename) <;>
        simp [hdir, hfresh, hnow, saveFiles_count, alookup_aset_self, hpos]

/-- C4 amended, witnessed: two accepted extensions (one uppercase `.PNG`) and
one rejected `.txt` item. -/
theorem c4_amended_extension_based_acceptance_witness :
    (upload_images (γ := Nat) ⟨[], [], []⟩ "s"
        [⟨"a.jpg", 1⟩, ⟨"b.txt", 2⟩, ⟨"c.PNG", 3⟩] false).2.accepted =
      ([⟨"a.jpg", 1⟩, ⟨"b.txt", 2⟩, ⟨"c.PNG", 3⟩] : List (UpFile Nat)).countP
        (fun f => isImageExt f.filename) ∧
    ∃ r, alookup (upload_images (γ := Nat) ⟨[], [], []⟩ "s"
        [⟨"a.jpg", 1⟩, ⟨"b.txt", 2⟩, ⟨"c.PNG", 3⟩] false).1.sessions "s" = some r ∧
      r.status = .uploaded ∧
      r.fileCount = ([⟨"a.jpg", 1⟩, ⟨"b.txt", 2⟩, ⟨"c.PNG", 3⟩] : List (UpFile Nat)).countP
        (fun f => isImageExt f.filename) :=
  c4_amended_extension_based_acceptance ⟨[], [], []⟩ "s"
    [⟨"a.jpg", 1⟩, ⟨"b.txt", 2⟩, ⟨"c.PNG", 3⟩] false (by decide)

/-! ### C5 -/

/-- C5: counterexample.  A pipeline run on a session with zero readable
frames (here: an empty upload directory) fails before producing an artifact,
but the session does NOT transition to `Error` and no cause is recorded: the
early `return None` of `process_images` (line 72) leaves the record
untouched, so the status stays `processing` and `error` stays unset. -/
theorem c5_zero_frame_failure_leaves_no_error :
    process_images "s" [("s", { status := .processing, fileCount := 0 })]
        ([] : Dir Nat) (fun c => some c) (fun _ => .ok [[0]]) =
      (none, [("s", { status := .processing, fileCount := 0 })]) ∧
    alookup ([("s", { status := .processing, fileCount := 0 })] :
        List (String × SessionRec)) "s" =
      some { status := .processing, fileCount := 0 } ∧
    ({ status := .processing, fileCount := 0 } : SessionRec).errorMsg = none := by
  decide

/-- C5 amended: a pipeline run that fails by raising an exception transitions
the session to `Error` with the exception text recorded, and the failing run
publishes no artifact reference (the record's `outputPath` is left as it
was).  But the two early-return failures — no `*.jpg` frames found and an
unreadable first frame — do NOT transition to `Error`: they return `None`
leaving the session record entirely unchanged (so the status stays
`Processing` and no cause is recorded). -/
theorem c5_amended_failure_paths {γ Img : Type} (sid : String)
    (S : List (String × SessionRec)) (d : Dir γ) (decode : γ → Option Img)
    (detect : Img → Except String (List (List Int))) :
    (∀ r, alookup S sid = some r → globSortJpg d = [] →
      process_images sid S d decode detect = (none, S)) ∧
    (∀ r n0 rest, alookup S sid = some r → globSortJpg d = n0 :: rest →
      readImage d decode n0 = none →
      process_images sid S d decode detect = (none, S)) ∧
    (∀ r n0 rest img e, alookup S sid = some r → globSortJpg d = n0 :: rest →
      readImage d decode n0 = some img →
      runLoop d decode detect (n0 :: rest) ⟨[], 0, 0, 0⟩ = .error e →
      process_images sid S d decode detect =
        (none, aset S sid { r with status := .error, errorMsg := some e })) := by
  refine ⟨fun r hr hglob => ?_, fun r n0 rest hr hglob hread => ?_,
    fun r n0 rest img e hr hglob hread hrun => ?_⟩
  · simp [process_images, hr, hglob]
  · simp [process_images, hr, hglob, hread]
  · simp [process_images, hr, hglob, hread, hrun, pipelineFinalize]

/-- C5 amended, witnessed on the three failure paths: empty directory;
single unreadable frame; detector raising mid-run. -/
theorem c5_amended_failure_paths_witness :
    process_images "s" [("s", { status := .processing, fileCount := 0 })]
        ([] : Dir Nat) (fun c => some c) (fun _ => .ok [[0]]) =
      (none, [("s", { status := .processing, fileCount := 0 })]) ∧
    process_images "s" [("s", { status := .processing, fileCount := 1 })]
        [(frameName 0, 7)] (fun _ => (none : Option Nat)) (fun _ => .ok [[0]]) =
      (none, [("s", { status := .processing, fileCount := 1 })]) ∧
    process_images "s" [("s", { status := .processing, fileCount := 1 })]
        [(frameName 0, 7)] (fun c => some c) (fun _ => .error "boom") =
      (none,
       aset ([("s", { status := .processing, fileCount := 1 })] :
           List (String × SessionRec)) "s"
         ({ status := .error, fileCount := 1, errorMsg := some "boom" } :
           SessionRec)) := by
  refine ⟨?_, ?_, ?_⟩
  · exact (c5_amended_failure_paths "s" _ _ _ _).1
      { status := .processing, fileCount := 0 } (by decide) (by decide)
  · exact (c5_amended_failure_paths "s" _ _ _ _).2.1
      { status := .processing, fileCount := 1 } (frameName 0) [] (by decide)
      (by decide) (by decide)
  · exact (c5_amended_failure_paths "s" _ _ _ _).2.2
      { status := .processing, fileCount := 1 } (frameName 0) [] 7 "boom"
      (by decide) (by decide) (by decide) (by decide)

/-! ### C6 -/

/-- C6: counterexample to the "if and only if".  A session whose status is
`completed` but whose recorded output file is missing on disk (here:
`os.path.exists` is false for every path, as after `delete_session` removed
the file but before the background `clean_session` dropped the record) makes
the download fail with `NotFound` (404) instead of returning the artifact
bytes, even though the status is `Completed`. -/
theorem c6_completed_with_missing_file_yields_not_found :
    download_video
        [("s", { status := .completed, fileCount := 1,
                 outputPath := some (outName "s") })]
        (fun _ => false) "s" =
      .error (.notFound ("Output video for session " ++ "s" ++ " not found")) ∧
    alookup ([("s", { status := .completed, fileCount := 1,
                      outputPath := some (outName "s") })] :
        List (String × SessionRec)) "s" =
      some { status := .completed, fileCount := 1,
             outputPath := some (outName "s") } ∧
    ({ status := .completed, fileCount := 1,
       outputPath := some (outName "s") } : SessionRec).status = .completed := by
  decide

/-- C6 amended: download returns the artifact with content type `video/mp4`
only if the session's status is `Completed`; an unknown id fails with
`NotFound`, a status other than `Completed` fails with `InvalidState`
(HTTP 400) returning no bytes, and a `Completed` session yields the bytes
when the recorded artifact file exists — but fails with `NotFound` (not
bytes) when the file is missing, so "Completed" alone does not guarantee a
download. -/
theorem c6_amended_download_conditions (S : List (String × SessionRec))
    (fe : String → Bool) (sid : String) :
    (alookup S sid = none →
      download_video S fe sid =
        .error (.notFound ("Session " ++ sid ++ " not found"))) ∧
    (∀ r, alookup S sid = some r → r.status ≠ .completed →
      download_video S fe sid =
        .error (.badRequest
          ("Processing for session " ++ sid ++ " is not complete"))) ∧
    (∀ r p, alookup S sid = some r → r.status = .completed →
      r.outputPath = some p → fe p = true →
      download_video S fe sid =
        .ok ⟨p, "processed_" ++ sid ++ ".mp4", "video/mp4"⟩) ∧
    (∀ r p, alookup S sid = some r → r.status = .completed →
      r.outputPath = some p → fe p = false →
      download_video S fe sid =
        .error (.notFound ("Output video for session " ++ sid ++ " not found"))) ∧
    (∀ resp, download_video S fe sid = .ok resp →
      ∃ r, alookup S sid = some r ∧ r.status = .completed ∧
        resp.mediaType = "video/mp4") := by
  refine ⟨fun h => by simp [download_video, h],
    fun r hr hs => by simp [download_video, hr, hs],
    fun r p hr hs hp hfe => by simp [download_video, hr, hs, hp, hfe],
    fun r p hr hs hp hfe => by simp [download_video, hr, hs, hp, hfe],
    fun resp hok => ?_⟩
  cases halo : alookup S sid with
  | none => simp [download_video, halo] at hok
  | some r =>
    by_cases hs : r.status = Status.completed
    · cases hp : r.outputPath with
      | none => simp [download_video, halo, hs, hp] at hok
      | some p =>
        by_cases hfe : fe p = true
        · refine ⟨r, rfl, hs, ?_⟩
          simp [download_video, halo, hs, hp, hfe] at hok
          rw [← hok]
        · simp [download_video, halo, hs, hp, hfe] at hok
    · simp [download_video, halo, hs] at hok

/-- C6 amended, witnessed on all five branches at concrete states. -/
theorem c6_amended_download_conditions_witness :
    download_video ([] : List (String × SessionRec)) (fun _ => true) "s" =
      .error (.notFound ("Session " ++ "s" ++ " not found")) ∧
    download_video ([("s", { status := .processing, fileCount := 1 })] :
        List (String × SessionRec)) (fun _ => true) "s" =
      .error (.badRequest ("Processing for session " ++ "s" ++ " is not complete")) ∧
    download_video ([("s", { status := .completed, fileCount := 1,
                             outputPath := some (outName "s") })] :
          List (String × SessionRec))
        (fun _ => true) "s" =
      .ok ⟨outName "s", "processed_" ++ "s" ++ ".mp4", "video/mp4"⟩ ∧
    download_video ([("s", { status := .completed, fileCount := 1,
                             outputPath := some (outName "s") })] :
          List (String × SessionRec))
        (fun _ => false) "s" =
      .error (.notFound ("Output video for session " ++ "s" ++ " not found")) ∧
    (∃ r, alookup ([("s", { status := .completed, fileCount := 1,
                            outputPath := some (outName "s") })] :
          List (String × SessionRec)) "s" =
        some r ∧ r.status = .completed ∧
      (⟨outName "s", "processed_" ++ "s" ++ ".mp4", "video/mp4"⟩ : DlResp).mediaType =
        "video/mp4") := by
  refine ⟨?_, ?_, ?_, ?_, ?_⟩
  · exact (c6_amended_download_conditions [] (fun _ => true) "s").1 (by decide)
  · exact (c6_amended_download_conditions _ (fun _ => true) "s").2.1
      { status := .processing, fileCount := 1 } (by decide) (by decide)
  · exact (c6_amended_download_conditions _ (fun _ => true) "s").2.2.1
      { status := .completed, fileCount := 1, outputPath := some (outName "s") }
      (outName "s") (by decide) (by decide) (by decide) (by decide)
  · exact (c6_amended_download_conditions _ (fun _ => false) "s").2.2.2.1
      { status := .completed, fileCount := 1, outputPath := some (outName "s") }
      (outName "s") (by decide) (by decide) (by decide) (by decide)
  · exact (c6_amended_download_conditions _ (fun _ => true) "s").2.2.2.2
      ⟨outName "s", "processed_" ++ "s" ++ ".mp4", "video/mp4"⟩ (by decide)

/-! ### C9 -/

/-- C9: a deletion taking effect while a pipeline run is in flight is
harmless.  `delete_session` succeeds and schedules the background clean-up;
once `clean_session` has removed the record, a run that has not started yet
returns `None` immediately, and a run reaching its final session write hits
the `KeyError` caught by the `except` handler, so the final write is
discarded (the map is returned unchanged and no error escapes — the
background task returns `None`); every subsequent status query answers
`NotFound`. -/
theorem c9_delete_mid_processing_is_harmless {γ Img : Type}
    (S : List (String × SessionRec)) (dirs : List (String × Dir γ))
    (fe : String → Bool) (sid : String) (r : SessionRec) (d : Dir γ)
    (decode : γ → Option Img) (detect : Img → Except String (List (List Int)))
    (res : Except String (LoopAcc Img)) (h : alookup S sid = some r) :
    (∃ out, delete_session S dirs fe sid = .ok out ∧ out.cleanPending = true) ∧
    process_images sid (clean_session S dirs sid).1 d decode detect =
      (none, (clean_session S dirs sid).1) ∧
    pipelineFinalize (clean_session S dirs sid).1 sid res =
      (none, (clean_session S dirs sid).1) ∧
    check_status (clean_session S dirs sid).1 sid =
      .error (.notFound ("Session " ++ sid ++ " not found")) := by
  refine ⟨?_, ?_, ?_, ?_⟩
  · rw [delete_session, h]
    exact ⟨_, rfl, rfl⟩
  · simp [process_images, clean_session, alookup_aremove_self]
  · cases res <;> simp [pipelineFinalize, clean_session, alookup_aremove_self]
  · simp [check_status, clean_session, alookup_aremove_self]

/-- C9, witnessed at a concrete processing session with one frame and a
finished loop result. -/
theorem c9_delete_mid_processing_is_harmless_witness :
    (∃ out, delete_session ([("s", { status := .processing, fileCount := 1 })] :
        List (String × SessionRec)) ([("s", [(frameName 0, 7)])] :
        List (String × Dir Nat)) (fun _ => false) "s" = .ok out ∧
      out.cleanPending = true) ∧
    process_images "s"
        (clean_session ([("s", { status := .processing, fileCount := 1 })] :
          List (String × SessionRec)) ([("s", [(frameName 0, 7)])] :
          List (String × Dir Nat)) "s").1
        ([(frameName 0, 7)] : Dir Nat) (fun c => some c) (fun _ => .ok [[0]]) =
      (none, (clean_session ([("s", { status := .processing, fileCount := 1 })] :
        List (String × SessionRec)) ([("s", [(frameName 0, 7)])] :
        List (String × Dir Nat)) "s").1) ∧
    pipelineFinalize
        (clean_session ([("s", { status := .processing, fileCount := 1 })] :
          List (String × SessionRec)) ([("s", [(frameName 0, 7)])] :
          List (String × Dir Nat)) "s").1 "s"
        (.ok (⟨[], 0, 0, 0⟩ : LoopAcc Nat)) =
      (none, (clean_session ([("s", { status := .processing, fileCount := 1 })] :
        List (String × SessionRec)) ([("s", [(frameName 0, 7)])] :
        List (String × Dir Nat)) "s").1) ∧
    check_status
        (clean_session ([("s", { status := .processing, fileCount := 1 })] :
          List (String × SessionRec)) ([("s", [(frameName 0, 7)])] :
          List (String × Dir Nat)) "s").1 "s" =
      .error (.notFound ("Session " ++ "s" ++ " not found")) :=
  c9_delete_mid_processing_is_harmless _ _ (fun _ => false) "s"
    { status := .processing, fileCount := 1 } [(frameName 0, 7)]
    (fun c => some c) (fun _ => .ok [[0]]) (.ok ⟨[], 0, 0, 0⟩) (by decide)

/-! ### C8 -/

/-- C8: counterexample.  A frame that decodes successfully but yields a
result with zero detection boxes is appended to the output WITHOUT the
per-frame summary overlay: the two `cv2.putText` calls sit inside the
`len(result.boxes) > 0` branch, so the written frame's overlay is `none`
even though the frame was decoded, annotated and appended (counters list it
as processed). -/
theorem c8_decoded_frame_without_boxes_lacks_overlay :
    runLoop ([(frameName 0, 7)] : Dir Nat) (fun c => some c)
        (fun _ => .ok [[]]) [frameName 0] ⟨[], 0, 0, 0⟩ =
      .ok ⟨[⟨frameName 0, 7, [], none⟩], 0, 0, 1⟩ := by
  decide

theorem frameOut_spec {γ Img : Type} (d : Dir γ) (decode : γ → Option Img)
    (detect : Img → Except String (List (List Int))) (n : FileName)
    (o : OutFrame Img) (h : frameOut d decode detect n = some o) :
    o.srcName = n ∧
    o.overlay =
      if o.boxes = [] then none else some (countPersons o.boxes, o.srcName) := by
  unfold frameOut at h
  cases hread : readImage d decode n with
  | none => simp [hread] at h
  | some img =>
    simp only [hread] at h
    cases hdet : detect img with
    | error e => simp [hdet] at h
    | ok results =>
      simp only [hdet] at h
      cases results with
      | nil => simp at h
      | cons r rs =>
        simp only [Option.some.injEq] at h
        subst h
        by_cases hr : r = [] <;> simp [hr]

theorem runLoop_ok_characterization {γ Img : Type} (d : Dir γ)
    (decode : γ → Option Img) (detect : Img → Except String (List (List Int)))
    (names : List FileName) (acc res : LoopAcc Img)
    (h : runLoop d decode detect names acc = .ok res) :
    res.outs = acc.outs ++ names.filterMap (frameOut d decode detect) ∧
    res.total = acc.total +
      ((names.filterMap (frameOut d decode detect)).map
        (fun o => countPersons o.boxes)).sum ∧
    res.maxP = max acc.maxP
      (((names.filterMap (frameOut d decode detect)).map
        (fun o => countPersons o.boxes)).foldr max 0) ∧
    res.processed = acc.processed +
      (names.filterMap (frameOut d decode detect)).length := by
  induction names generalizing acc with
  | nil =>
    rw [runLoop] at h
    cases h
    simp
  | cons n rest ih =>
    rw [runLoop] at h
    cases hread : readImage d decode n with
    | none =>
      rw [hread] at h
      have := ih acc h
      simpa [List.filterMap_cons, frameOut, hread] using this
    | some img =>
      simp only [hread] at h
      cases hdet : detect img with
      | error e => simp [hdet] at h
      | ok results =>
        simp only [hdet] at h
        cases results with
        | nil =>
          have := ih acc h
          simpa [List.filterMap_cons, frameOut, hread, hdet] using this
        | cons r rs =>
          by_cases hr : r = []
          · subst hr
            have := ih _ h
            rcases this with ⟨h1, h2, h3, h4⟩
            refine ⟨?_, ?_, ?_, ?_⟩
            · rw [h1]
              simp [List.filterMap_cons, frameOut, hread, hdet]
            · rw [h2]
              simp [List.filterMap_cons, frameOut, hread, hdet, countPersons]
            · rw [h3]
              simp [List.filterMap_cons, frameOut, hread, hdet, countPersons,
                Nat.max_assoc]
            · rw [h4]
              simp [List.filterMap_cons, frameOut, hread, hdet]
              omega
          · simp only [if_neg hr] at h
            have := ih _ h
            rcases this with ⟨h1, h2, h3, h4⟩
            refine ⟨?_, ?_, ?_, ?_⟩
            · rw [h1]
              simp [List.filterMap_cons, frameOut, hread, hdet, hr]
            · rw [h2]
              simp [List.filterMap_cons, frameOut, hread, hdet, hr]
              omega
            · rw [h3]
              simp [List.filterMap_cons, frameOut, hread, hdet, hr,
                Nat.max_assoc]
            · rw [h4]
              simp [List.filterMap_cons, frameOut, hread, hdet, hr]
              omega

/-- C8 amended: in the frame loop, a frame that fails to decode is skipped
without aborting the run (the loop result is unchanged by such frames); every
frame that decodes AND yields a nonempty detector result list is annotated
and appended — with the per-frame summary overlay present exactly when the
frame has at least one detection box (a decoded frame with zero boxes is
appended without the overlay); and on a run with no exception, `total_people`
equals the sum over appended frames of that frame's person-class count,
`max_people_in_frame` equals the maximum such count (0 when none), and
`processed_count` equals the number of appended frames. -/
theorem c8_amended_frame_loop_behaviour {γ Img : Type} (d : Dir γ)
    (decode : γ → Option Img) (detect : Img → Except String (List (List Int)))
    (names : List FileName) (res : LoopAcc Img) :
    (∀ n acc, readImage d decode n = none →
      runLoop d decode detect (n :: names) acc = runLoop d decode detect names acc) ∧
    (runLoop d decode detect names ⟨[], 0, 0, 0⟩ = .ok res →
      res.outs = names.filterMap (frameOut d decode detect) ∧
      res.total = (res.outs.map (fun o => countPersons o.boxes)).sum ∧
      res.maxP = (res.outs.map (fun o => countPersons o.boxes)).foldr max 0 ∧
      res.processed = res.outs.length ∧
      ∀ o ∈ res.outs, o.overlay =
        if o.boxes = [] then none
        else some (countPersons o.boxes, o.srcName)) := by
  constructor
  · intro n acc hread
    rw [runLoop, hread]
  · intro h
    obtain ⟨h1, h2, h3, h4⟩ := runLoop_ok_characterization d decode detect names _ res h
    simp only [List.nil_append, Nat.zero_add, Nat.zero_max] at h1 h2 h3 h4
    refine ⟨h1, by rw [h2, h1], by rw [h3, h1], by rw [h4, h1], ?_⟩
    intro o ho
    rw [h1] at ho
    obtain ⟨n, _, hsome⟩ := List.mem_filterMap.mp ho
    exact (frameOut_spec d decode detect n o hsome).2

/-- C8 amended, witnessed: two stored frames, the second unreadable (skipped
without aborting), the first carrying three boxes of classes `[0, 1, 0]`
(person count 2); the loop appends one overlaid frame and reports
`total_people = 2`, `max_people_in_frame = 2`, `processed_count = 1`. -/
theorem c8_amended_frame_loop_behaviour_witness :
    runLoop ([(frameName 0, 7), (frameName 1, 8)] : Dir Nat)
        (fun c => if c = 8 then none else some c) (fun _ => .ok [[0, 1, 0]])
        (frameName 1 :: [frameName 0]) ⟨[], 0, 0, 0⟩ =
      runLoop ([(frameName 0, 7), (frameName 1, 8)] : Dir Nat)
        (fun c => if c = 8 then none else some c) (fun _ => .ok [[0, 1, 0]])
        [frameName 0] ⟨[], 0, 0, 0⟩ ∧
    (⟨[⟨frameName 0, 7, [0, 1, 0], some (2, frameName 0)⟩], 2, 2, 1⟩ :
        LoopAcc Nat).outs =
      [frameName 0].filterMap
        (frameOut ([(frameName 0, 7), (frameName 1, 8)] : Dir Nat)
          (fun c => if c = 8 then none else some c) (fun _ => .ok [[0, 1, 0]])) ∧
    (⟨[⟨frameName 0, 7, [0, 1, 0], some (2, frameName 0)⟩], 2, 2, 1⟩ :
        LoopAcc Nat).total =
      ((⟨[⟨frameName 0, 7, [0, 1, 0], some (2, frameName 0)⟩], 2, 2, 1⟩ :
          LoopAcc Nat).outs.map (fun o => countPersons o.boxes)).sum ∧
    (⟨[⟨frameName 0, 7, [0, 1, 0], some (2, frameName 0)⟩], 2, 2, 1⟩ :
        LoopAcc Nat).maxP =
      ((⟨[⟨frameName 0, 7, [0, 1, 0], some (2, frameName 0)⟩], 2, 2, 1⟩ :
          LoopAcc Nat).outs.map (fun o => countPersons o.boxes)).foldr max 0 ∧
    (⟨[⟨frameName 0, 7, [0, 1, 0], some (2, frameName 0)⟩], 2, 2, 1⟩ :
        LoopAcc Nat).processed =
      (⟨[⟨frameName 0, 7, [0, 1, 0], some (2, frameName 0)⟩], 2, 2, 1⟩ :
        LoopAcc Nat).outs.length ∧
    (⟨frameName 0, 7, [0, 1, 0], some (2, frameName 0)⟩ : OutFrame Nat).overlay =
      (if (⟨frameName 0, 7, [0, 1, 0], some (2, frameName 0)⟩ :
            OutFrame Nat).boxes = [] then none
       else some (countPersons (⟨frameName 0, 7, [0, 1, 0], some (2, frameName 0)⟩ :
            OutFrame Nat).boxes,
          (⟨frameName 0, 7, [0, 1, 0], some (2, frameName 0)⟩ :
            OutFrame Nat).srcName)) := by
  have h := c8_amended_frame_loop_behaviour
    ([(frameName 0, 7), (frameName 1, 8)] : Dir Nat)
    (fun c => if c = 8 then none else some c) (fun _ => .ok [[0, 1, 0]])
    [frameName 0]
    (⟨[⟨frameName 0, 7, [0, 1, 0], some (2, frameName 0)⟩], 2, 2, 1⟩ :
      LoopAcc Nat)
  have hok := h.2 (by decide)
  exact ⟨h.1 (frameName 1) ⟨[], 0, 0, 0⟩ (by decide), hok.1, hok.2.1,
    hok.2.2.1, hok.2.2.2.1,
    hok.2.2.2.2 ⟨frameName 0, 7, [0, 1, 0], some (2, frameName 0)⟩ (by decide)⟩

/-! ### C7 -/

theorem decDigitsCore_eq_digitsBE (n : Nat) : ∀ (f : Nat) (acc : List Nat),
    n + 1 ≤ f → decDigitsCore f n acc = digitsBE n ++ acc := by
  induction n using Nat.strong_induction_on with
  | _ n ih =>
    intro f acc hf
    cases f with
    | zero => omega
    | succ f =>
      rw [decDigitsCore]
      by_cases h10 : n < 10
      · rw [if_pos h10, digitsBE, if_pos h10]
        rfl
      · rw [if_neg h10]
        have hdiv : n / 10 < n := Nat.div_lt_self (by omega) (by omega)
        rw [ih (n / 10) hdiv f _ (by omega)]
        conv_rhs => rw [digitsBE]
        rw [if_neg h10]
        simp

theorem decRepr_eq_digitsBE (n : Nat) : decRepr n = digitsBE n := by
  have := decDigitsCore_eq_digitsBE n (n + 1) [] (le_refl _)
  simpa [decRepr] using this

theorem digitsBE_d1 {n : Nat} (h : n < 10) : digitsBE n = [48 + n] := by
  rw [digitsBE, if_pos h]

theorem digitsBE_d2 {n : Nat} (h1 : 10 ≤ n) (h2 : n < 100) :
    digitsBE n = [48 + n / 10, 48 + n % 10] := by
  rw [digitsBE, if_neg (by omega), digitsBE_d1 (by omega)]
  rfl

theorem digitsBE_d3 {n : Nat} (h1 : 100 ≤ n) (h2 : n < 1000) :
    digitsBE n = [48 + n / 100, 48 + n / 10 % 10, 48 + n % 10] := by
  rw [digitsBE, if_neg (by omega), digitsBE_d2 (by omega) (by omega)]
  simp only [List.cons_append, List.nil_append, List.cons.injEq, and_true,
    true_and]
  omega

theorem digitsBE_d4 {n : Nat} (h1 : 1000 ≤ n) (h2 : n < 10000) :
    digitsBE n =
      [48 + n / 1000, 48 + n / 100 % 10, 48 + n / 10 % 10, 48 + n % 10] := by
  rw [digitsBE, if_neg (by omega), digitsBE_d3 (by omega) (by omega)]
  simp only [List.cons_append, List.nil_append, List.cons.injEq, and_true,
    true_and]
  omega

theorem digitsBE_d5 {n : Nat} (h1 : 10000 ≤ n) (h2 : n < 100000) :
    digitsBE n =
      [48 + n / 10000, 48 + n / 1000 % 10, 48 + n / 100 % 10,
        48 + n / 10 % 10, 48 + n % 10] := by
  rw [digitsBE, if_neg (by omega), digitsBE_d4 (by omega) (by omega)]
  simp only [List.cons_append, List.nil_append, List.cons.injEq, and_true,
    true_and]
  omega

theorem pad5_eq_digits5 {n : Nat} (h : n < 100000) : pad5 n = digits5 n := by
  unfold pad5 digits5
  rw [decRepr_eq_digitsBE]
  by_cases h1 : n < 10
  · rw [digitsBE_d1 h1]
    simp only [List.length_cons, List.length_nil, List.cons.injEq]
    norm_num [List.replicate]
    try omega
  · by_cases h2 : n < 100
    · rw [digitsBE_d2 (by omega) h2]
      simp only [List.length_cons, List.length_nil, List.cons.injEq]
      norm_num [List.replicate]
      try omega
    · by_cases h3 : n < 1000
      · rw [digitsBE_d3 (by omega) h3]
        simp only [List.length_cons, List.length_nil, List.cons.injEq]
        norm_num [List.replicate]
        try omega
      · by_cases h4 : n < 10000
        · rw [digitsBE_d4 (by omega) h4]
          simp only [List.length_cons, List.length_nil, List.cons.injEq]
          norm_num [List.replicate]
          try omega
        · rw [digitsBE_d5 (by omega) h]
          simp only [List.length_cons, List.length_nil, List.cons.injEq]
          norm_num [List.replicate]
          try omega

theorem digits5_append_lex {i j : Nat} (t : List Nat) (hij : i < j)
    (hj : j < 100000) :
    List.Lex (· < ·) (digits5 i ++ t) (digits5 j ++ t) := by
  unfold digits5
  simp only [List.cons_append, List.nil_append]
  rcases Nat.lt_trichotomy (i / 10000) (j / 10000) with h4 | h4 | h4
  · exact List.Lex.rel (by omega)
  · rw [show 48 + i / 10000 = 48 + j / 10000 by omega]
    apply List.Lex.cons
    rcases Nat.lt_trichotomy (i / 1000 % 10) (j / 1000 % 10) with h3 | h3 | h3
    · exact List.Lex.rel (by omega)
    · rw [show 48 + i / 1000 % 10 = 48 + j / 1000 % 10 by omega]
      apply List.Lex.cons
      rcases Nat.lt_trichotomy (i / 100 % 10) (j / 100 % 10) with h2 | h2 | h2
      · exact List.Lex.rel (by omega)
      · rw [show 48 + i / 100 % 10 = 48 + j / 100 % 10 by omega]
        apply List.Lex.cons
        rcases Nat.lt_trichotomy (i / 10 % 10) (j / 10 % 10) with h1 | h1 | h1
        · exact List.Lex.rel (by omega)
        · rw [show 48 + i / 10 % 10 = 48 + j / 10 % 10 by omega]
          apply List.Lex.cons
          rcases Nat.lt_trichotomy (i % 10) (j % 10) with h0 | h0 | h0
          · exact List.Lex.rel (by omega)
          · exact absurd hij (by omega)
          · exact absurd hij (by omega)
        · exact absurd hij (by omega)
      · exact absurd hij (by omega)
    · exact absurd hij (by omega)
  · exact absurd hij (by omega)

theorem frameName_lt {i j : Nat} (hij : i < j) (hj : j < 100000) :
    frameName i < frameName j := by
  have hi : i < 100000 := lt_trans hij hj
  unfold frameName
  rw [pad5_eq_digits5 hi, pad5_eq_digits5 hj]
  exact digits5_append_lex _ hij hj

theorem matchesJpg_frameName (i : Nat) : matchesJpg (frameName i) = true := by
  unfold matchesJpg frameName
  rw [List.isSuffixOf_iff_suffix]
  exact List.suffix_append _ _

theorem filter_matchesJpg_of_perm {γ : Type} {d : Dir γ} {N : Nat}
    (hperm : List.Perm (d.map Prod.fst) ((List.range N).map frameName)) :
    (d.map Prod.fst).filter matchesJpg = d.map Prod.fst := by
  apply List.filter_eq_self.mpr
  intro a ha
  obtain ⟨i, _, rfl⟩ := List.mem_map.mp (hperm.mem_iff.mp ha)
  exact matchesJpg_frameName i

theorem sorted_frameName_range {N : Nat} (hN : N ≤ 100000) :
    List.Sorted (· ≤ ·) ((List.range N).map frameName) := by
  refine List.pairwise_map.mpr ?_
  refine List.Pairwise.imp_of_mem ?_ (List.pairwise_lt_range N)
  intro a b _ hb hlt
  exact le_of_lt (frameName_lt hlt (lt_of_lt_of_le (List.mem_range.mp hb) hN))

/-- C7 amended: for a session whose stored frames are exactly those with
sequence indices `0..N-1` and `N ≤ 100000` (the width of the zero-padded
five-digit frame names), the pipeline reads them back in ascending index
order regardless of the order in which the underlying storage enumerates
them — `sorted(glob("*.jpg"))` sorts the names lexicographically, and up to
100000 the padded names are in lexicographic order iff the indices are
ascending.  (Beyond 100000 frames the six-digit names break the lexicographic
agreement, refuting the unrestricted claim.) -/
theorem c7_amended_read_order_up_to_100000 {γ : Type} (N : Nat) (d : Dir γ)
    (hN : N ≤ 100000)
    (hperm : List.Perm (d.map Prod.fst) ((List.range N).map frameName)) :
    globSortJpg d = (List.range N).map frameName := by
  unfold globSortJpg
  rw [filter_matchesJpg_of_perm hperm]
  exact List.eq_of_perm_of_sorted
    ((List.perm_insertionSort _ _).trans hperm)
    (List.sorted_insertionSort _ _)
    (sorted_frameName_range hN)

/-- C7 amended, witnessed: three frames enumerated by the storage in the
order 2, 0, 1 are read back as 0, 1, 2. -/
theorem c7_amended_read_order_up_to_100000_witness :
    (3 ≤ 100000 ∧
      List.Perm
        ((([(frameName 2, ()), (frameName 0, ()), (frameName 1, ())] :
          Dir Unit)).map Prod.fst)
        ((List.range 3).map frameName)) ∧
    globSortJpg ([(frameName 2, ()), (frameName 0, ()), (frameName 1, ())] :
        Dir Unit) =
      (List.range 3).map frameName :=
  ⟨⟨by omega, by decide⟩,
   c7_amended_read_order_up_to_100000 3 _ (by omega) (by decide)⟩

/-- C7: counterexample to the unrestricted claim.  With N = 100001 frames the
frame at index 100000 is stored as the six-digit name `100000.jpg`, which
sorts lexicographically BEFORE `99999.jpg`; so for the session holding frames
`0..100000` (even when the storage enumerates them in index order) the
pipeline's `sorted(glob(...))` read order is not the ascending index order. -/
theorem c7_read_order_claim_false : ¬ c7ReadOrderClaim := by
  intro hclaim
  have hmapfst :
      (((List.range 100001).map (fun i => (frameName i, ()))) : Dir Unit).map
        Prod.fst = (List.range 100001).map frameName := by
    rw [List.map_map]
    rfl
  have h := hclaim 100001 ((List.range 100001).map (fun i => (frameName i, ())))
    (by rw [hmapfst])
  unfold globSortJpg at h
  rw [hmapfst, List.filter_eq_self.mpr (fun a ha => by
    obtain ⟨i, _, rfl⟩ := List.mem_map.mp ha
    exact matchesJpg_frameName i)] at h
  have hsort : List.Sorted (· ≤ ·) ((List.range 100001).map frameName) := by
    rw [← h]
    exact List.sorted_insertionSort _ _
  have hrel := (List.pairwise_iff_get.mp hsort)
    ⟨99999, by rw [List.length_map, List.length_range]; omega⟩
    ⟨100000, by rw [List.length_map, List.length_range]; omega⟩
    (by exact Fin.mk_lt_mk.mpr (by omega))
  have e1 : ((List.range 100001).map frameName).get
      ⟨99999, by rw [List.length_map, List.length_range]; omega⟩ =
      frameName 99999 := by
    simp
  have e2 : ((List.range 100001).map frameName).get
      ⟨100000, by rw [List.length_map, List.length_range]; omega⟩ =
      frameName 100000 := by
    simp
  rw [e1, e2] at hrel
  have h9 : frameName 99999 = [57, 57, 57, 57, 57, 46, 106, 112, 103] := by
    decide
  have h10 : frameName 100000 =
      [49, 48, 48, 48, 48, 48, 46, 106, 112, 103] := by
    decide
  have hlt : frameName 100000 < frameName 99999 := by
    rw [h9, h10]
    exact List.Lex.rel (by norm_num)
  exact absurd hrel (not_le.mpr hlt)
